import Mathlib

/-!
Verification of the state-machine behaviour of `src/main.py`
(The Homemade Audiobook, a Tkinter + pyttsx3 text-to-speech app).

The embedding mirrors the UI handlers of the `AudiobookApp` class.  Each
handler is translated as the list of atomic micro-operations it performs
(widget configuration, flag writes, `root.after(0, ...)` scheduling,
thread start), in source order.  A system state carries the app's widget
and flag state, the FIFO queue of callbacks scheduled on the UI thread
via `root.after(0, ...)`, and the running worker thread, if any.
Executions are arbitrary interleavings of UI events (button clicks,
running a queued callback) and the worker thread finishing.
-/

/-- Tkinter widget state: `tk.NORMAL` or `tk.DISABLED`. -/
inductive BtnState : Type
  | normal : BtnState
  | disabled : BtnState
deriving DecidableEq, Repr

/-- The mutable state owned by the UI shell: the `engine`
(`none`/`some` modelled as a Bool: is it initialized?), the
`is_speaking` flag, the status label text and colour, and the two
buttons' states. -/
structure AppState : Type where
  engineInit : Bool
  is_speaking : Bool
  status : String
  statusColor : String
  convertBtn : BtnState
  stopBtn : BtnState
deriving DecidableEq, Repr

/-- Callbacks that `_speak_text` schedules on the UI thread with
`root.after(0, ...)`: `_on_speech_complete`, or
`lambda: _on_speech_error(str(e))`. -/
inductive Callback : Type
  | complete : Callback
  | error (msg : String) : Callback
deriving DecidableEq, Repr

/-- An atomic operation performed by a handler, in source order. -/
inductive MicroOp : Type
  | showErrorBox (title msg : String) : MicroOp
  | showWarningBox (title msg : String) : MicroOp
  | setSpeaking (b : Bool) : MicroOp
  | updateStatus (msg color : String) : MicroOp
  | configConvert (s : BtnState) : MicroOp
  | configStop (s : BtnState) : MicroOp
  | engineStop : MicroOp
  | startThread (text : String) : MicroOp
  | schedule (cb : Callback) : MicroOp
deriving DecidableEq, Repr

/-- The placeholder text inserted into the text widget at creation. -/
def placeholderText : String := "Enter your text here..."

/-- Python's `str.strip()` on a character list: drop whitespace from
both ends. -/
def stripChars (l : List Char) : List Char :=
  ((l.dropWhile Char.isWhitespace).reverse.dropWhile Char.isWhitespace).reverse

/-- Python's `str.strip()`. -/
def pyStrip (s : String) : String :=
  String.mk (stripChars s.data)

/-- `_validate_input`: strip the text; reject it (with a warning box,
emitted by the caller's trace) when empty or equal to the placeholder,
otherwise return the stripped text. -/
def validate_input (raw : String) : Option String :=
  let text := pyStrip raw
  if text = "" ∨ text = placeholderText then none else some text

/-- `_on_convert_click`: if the engine is `None`, show an error box and
return; if validation fails, `_validate_input` shows a warning box and
the handler returns; otherwise set `is_speaking`, update the status,
configure both buttons, and start the worker thread — in that order. -/
def on_convert_click_ops (a : AppState) (raw : String) : List MicroOp :=
  if a.engineInit = false then
    [MicroOp.showErrorBox "Engine Error" "Text-to-speech engine is not available."]
  else
    match validate_input raw with
    | none =>
        [MicroOp.showWarningBox "Empty Text"
          "Please enter some text before converting to audio."]
    | some text =>
        [MicroOp.setSpeaking true,
         MicroOp.updateStatus "Converting to audio..." "blue",
         MicroOp.configConvert BtnState.disabled,
         MicroOp.configStop BtnState.normal,
         MicroOp.startThread text]

/-- `_speak_text` (worker thread), after `engine.say`/`engine.runAndWait`
return or raise: on normal return it reads `self.is_speaking` and, only
if still set, schedules `_on_speech_complete`; on any exception it
schedules `_on_speech_error(str(e))`.  The exception never escapes: the
function is total and only ever emits `schedule` operations. -/
def speak_text_ops (outcome : Except String Unit) (is_speaking : Bool) : List MicroOp :=
  match outcome with
  | Except.ok _ =>
      if is_speaking then [MicroOp.schedule Callback.complete] else []
  | Except.error e => [MicroOp.schedule (Callback.error e)]

/-- `_on_speech_complete` (runs on the UI thread): clear the flag, set
the status, re-enable convert, disable stop — unconditionally. -/
def on_speech_complete_ops : List MicroOp :=
  [MicroOp.setSpeaking false,
   MicroOp.updateStatus "Playback complete" "green",
   MicroOp.configConvert BtnState.normal,
   MicroOp.configStop BtnState.disabled]

/-- `_on_speech_error` (runs on the UI thread): clear the flag, show
the error in the status label, re-enable convert, disable stop. -/
def on_speech_error_ops (error : String) : List MicroOp :=
  [MicroOp.setSpeaking false,
   MicroOp.updateStatus ("Error: " ++ error) "red",
   MicroOp.configConvert BtnState.normal,
   MicroOp.configStop BtnState.disabled]

/-- `_stop_speaking`: guarded by `self.engine and self.is_speaking`;
when the guard holds, call `engine.stop()`, clear the flag, set the
status, re-enable convert and disable stop. -/
def stop_speaking_ops (a : AppState) : List MicroOp :=
  if a.engineInit = true ∧ a.is_speaking = true then
    [MicroOp.engineStop,
     MicroOp.setSpeaking false,
     MicroOp.updateStatus "Playback stopped" "orange",
     MicroOp.configConvert BtnState.normal,
     MicroOp.configStop BtnState.disabled]
  else []

/-- Outcome of `_initialize_engine`: success, `ImportError`, or an
initialization exception with its message. -/
inductive EngineInitResult : Type
  | ok : EngineInitResult
  | importError : EngineInitResult
  | initError (msg : String) : EngineInitResult
deriving DecidableEq, Repr

/-- `_initialize_engine`: on success `self.engine` is set (and the rate
and volume properties configured); on `ImportError` or any other
exception, the status shows the error and the convert button is
disabled, while `self.engine` stays `None`. -/
def initEngine (a : AppState) (r : EngineInitResult) : AppState :=
  match r with
  | EngineInitResult.ok => { a with engineInit := true }
  | EngineInitResult.importError =>
      { a with status := "Error: pyttsx3 not installed", statusColor := "red",
               convertBtn := BtnState.disabled }
  | EngineInitResult.initError msg =>
      { a with status := "Error: " ++ msg, statusColor := "red",
               convertBtn := BtnState.disabled }

/-- The app state right after `_create_widgets`: flag cleared, status
"Ready" in gray, convert button at its default `tk.NORMAL`, stop button
created with `state=tk.DISABLED`, engine not yet initialized. -/
def initialApp : AppState :=
  { engineInit := false, is_speaking := false, status := "Ready",
    statusColor := "gray", convertBtn := BtnState.normal,
    stopBtn := BtnState.disabled }

/-- Whole-system state: the app state, the FIFO queue of callbacks
scheduled with `root.after(0, ...)`, the worker thread currently running
(with its text), and a count of worker threads started so far. -/
structure SysState : Type where
  app : AppState
  queue : List Callback
  worker : Option String
  threadsStarted : Nat
deriving DecidableEq, Repr

/-- Apply one micro-operation to the system state.  Message boxes and
`engine.stop()` do not change the modelled state. -/
def applyOp (s : SysState) (op : MicroOp) : SysState :=
  match op with
  | MicroOp.setSpeaking b => { s with app := { s.app with is_speaking := b } }
  | MicroOp.updateStatus m c =>
      { s with app := { s.app with status := m, statusColor := c } }
  | MicroOp.configConvert b => { s with app := { s.app with convertBtn := b } }
  | MicroOp.configStop b => { s with app := { s.app with stopBtn := b } }
  | MicroOp.schedule cb => { s with queue := s.queue ++ [cb] }
  | MicroOp.startThread t =>
      { s with worker := some t, threadsStarted := s.threadsStarted + 1 }
  | MicroOp.showErrorBox _ _ => s
  | MicroOp.showWarningBox _ _ => s
  | MicroOp.engineStop => s

/-- Apply a handler's micro-operations in order. -/
def applyOps (s : SysState) (ops : List MicroOp) : SysState :=
  ops.foldl applyOp s

/-- Events of an execution: the two button commands, the worker thread's
blocking call returning (normally or with an exception), and the UI
event loop running the next queued callback. -/
inductive Event : Type
  | convertClick (raw : String) : Event
  | stopClick : Event
  | workerFinish (outcome : Except String Unit) : Event
  | runCallback : Event
deriving Repr

/-- One atomic step of the system.  Clicks run the corresponding handler
to completion on the UI thread; `workerFinish` is the worker's
post-`runAndWait` code (its read of `is_speaking` and its scheduling);
`runCallback` dequeues and runs the next scheduled callback. -/
def step (s : SysState) (e : Event) : SysState :=
  match e with
  | Event.convertClick raw => applyOps s (on_convert_click_ops s.app raw)
  | Event.stopClick => applyOps s (stop_speaking_ops s.app)
  | Event.workerFinish outcome =>
      match s.worker with
      | none => s
      | some _ =>
          applyOps { s with worker := none }
            (speak_text_ops outcome s.app.is_speaking)
  | Event.runCallback =>
      match s.queue with
      | [] => s
      | cb :: rest =>
          match cb with
          | Callback.complete =>
              applyOps { s with queue := rest } on_speech_complete_ops
          | Callback.error msg =>
              applyOps { s with queue := rest } (on_speech_error_ops msg)

/-- The system state at startup: widgets created, engine initialization
attempted with result `r`, nothing queued, no worker running. -/
def initSys (r : EngineInitResult) : SysState :=
  { app := initEngine initialApp r, queue := [], worker := none,
    threadsStarted := 0 }

/-- Run an execution: fold the step function over a list of events. -/
def run (s : SysState) (events : List Event) : SysState :=
  events.foldl step s

/-- Is a micro-operation a `root.after(0, ...)` scheduling call? -/
def isScheduleOp : MicroOp → Bool
  | MicroOp.schedule _ => true
  | _ => false

/-- The two button-enablement conditions the widgets are meant to keep
in sync with the `is_speaking` flag. -/
def buttonsConsistent (a : AppState) : Prop :=
  (a.stopBtn = BtnState.normal ↔ a.is_speaking = true) ∧
  (a.engineInit = true → (a.convertBtn = BtnState.normal ↔ a.is_speaking = false))

/-- Validation succeeds exactly on text whose stripped form is non-empty
and differs from the placeholder, and returns the stripped text. -/
lemma validate_input_some (raw : String) (hne : pyStrip raw ≠ "")
    (hph : pyStrip raw ≠ placeholderText) :
    validate_input raw = some (pyStrip raw) := by
  simp [validate_input, hne, hph]

/-- Validation fails on text whose stripped form is empty or the
placeholder. -/
lemma validate_input_none (raw : String)
    (hbad : pyStrip raw = "" ∨ pyStrip raw = placeholderText) :
    validate_input raw = none := by
  rcases hbad with h | h <;> simp [validate_input, h]

/-- In a session whose engine failed to initialize, with nothing queued,
no worker and the flag clear, every event is a no-op. -/
lemma step_dead (s : SysState) (e : Event)
    (hEng : s.app.engineInit = false)
    (hq : s.queue = []) (hw : s.worker = none) :
    step s e = s := by
  cases e with
  | convertClick raw =>
      simp [step, on_convert_click_ops, hEng, applyOps, applyOp]
  | stopClick =>
      simp [step, stop_speaking_ops, hEng, applyOps]
  | workerFinish outcome =>
      simp [step, hw]
  | runCallback =>
      simp [step, hq]

/-- In a dead session (failed engine, idle, empty queue, no worker),
every execution is a no-op. -/
lemma run_dead (s : SysState)
    (hEng : s.app.engineInit = false)
    (hq : s.queue = []) (hw : s.worker = none) (events : List Event) :
    run s events = s := by
  induction events with
  | nil => rfl
  | cons e es ih =>
      show List.foldl step (step s e) es = s
      rw [step_dead s e hEng hq hw]
      exact ih

/-- C1: the claim says a completion callback arriving after stop must
not overwrite `Stopped`.  The code violates this: in the execution where
the worker finishes (its `is_speaking` check still sees `true`, so it
schedules `_on_speech_complete`), the user then presses stop while
`is_speaking` is still true (state becomes `Stopped`), and the queued
completion callback then runs, `_on_speech_complete` unconditionally
overwrites the status to "Playback complete".  This closed theorem
evaluates the code on that execution. -/
theorem stop_overwritten_by_late_completion :
    (run (initSys EngineInitResult.ok)
      [Event.convertClick "Hello world.",
       Event.workerFinish (Except.ok ())]).app.is_speaking = true ∧
    (run (initSys EngineInitResult.ok)
      [Event.convertClick "Hello world.",
       Event.workerFinish (Except.ok ()),
       Event.stopClick]).app.status = "Playback stopped" ∧
    (run (initSys EngineInitResult.ok)
      [Event.convertClick "Hello world.",
       Event.workerFinish (Except.ok ()),
       Event.stopClick,
       Event.runCallback]).app.status = "Playback complete" := by decide

/-- C2: with the engine initialized and stripped text non-empty and not
the placeholder, the convert-click handler sets `is_speaking`, disables
convert and enables stop, and all of these precede the thread start: the
handler's trace is a prefix containing those operations followed by the
single `startThread`, and after the prefix alone (before any thread is
started) the flag is set, convert is disabled and stop is enabled. -/
theorem convert_click_state_set_before_thread (a : AppState) (raw : String)
    (hEng : a.engineInit = true)
    (hne : pyStrip raw ≠ "") (hph : pyStrip raw ≠ placeholderText) :
    ∃ pre : List MicroOp,
      on_convert_click_ops a raw = pre ++ [MicroOp.startThread (pyStrip raw)] ∧
      MicroOp.setSpeaking true ∈ pre ∧
      MicroOp.configConvert BtnState.disabled ∈ pre ∧
      MicroOp.configStop BtnState.normal ∈ pre ∧
      ∀ s : SysState,
        (applyOps s pre).app.is_speaking = true ∧
        (applyOps s pre).app.convertBtn = BtnState.disabled ∧
        (applyOps s pre).app.stopBtn = BtnState.normal ∧
        (applyOps s pre).worker = s.worker ∧
        (applyOps s pre).threadsStarted = s.threadsStarted := by
  refine ⟨[MicroOp.setSpeaking true,
           MicroOp.updateStatus "Converting to audio..." "blue",
           MicroOp.configConvert BtnState.disabled,
           MicroOp.configStop BtnState.normal], ?_, ?_, ?_, ?_, ?_⟩
  · simp [on_convert_click_ops, hEng, validate_input_some raw hne hph]
  · simp
  · simp
  · simp
  · intro s
    simp [applyOps, applyOp]

/-- C2 witness: the theorem applied to the initialized startup state and
the input "Hello world.". -/
theorem convert_click_state_set_before_thread_witness :
    (initEngine initialApp EngineInitResult.ok).engineInit = true ∧
    pyStrip "Hello world." ≠ "" ∧
    pyStrip "Hello world." ≠ placeholderText ∧
    ∃ pre : List MicroOp,
      on_convert_click_ops (initEngine initialApp EngineInitResult.ok) "Hello world."
        = pre ++ [MicroOp.startThread (pyStrip "Hello world.")] ∧
      MicroOp.setSpeaking true ∈ pre ∧
      MicroOp.configConvert BtnState.disabled ∈ pre ∧
      MicroOp.configStop BtnState.normal ∈ pre ∧
      ∀ s : SysState,
        (applyOps s pre).app.is_speaking = true ∧
        (applyOps s pre).app.convertBtn = BtnState.disabled ∧
        (applyOps s pre).app.stopBtn = BtnState.normal ∧
        (applyOps s pre).worker = s.worker ∧
        (applyOps s pre).threadsStarted = s.threadsStarted :=
  ⟨by decide, by decide, by decide,
   convert_click_state_set_before_thread (initEngine initialApp EngineInitResult.ok)
     "Hello world." (by decide) (by decide) (by decide)⟩

/-- C3: when the worker's blocking call returns normally and
`is_speaking` is still true, the worker schedules the completion
callback, and `_on_speech_complete`, run from any state, leaves
`is_speaking` false, status "Playback complete", convert enabled, stop
disabled. -/
theorem normal_return_schedules_complete (s : SysState) (t : String)
    (hw : s.worker = some t) (hspk : s.app.is_speaking = true) :
    (step s (Event.workerFinish (Except.ok ()))).queue
        = s.queue ++ [Callback.complete] ∧
    ∀ s' : SysState,
      (applyOps s' on_speech_complete_ops).app.is_speaking = false ∧
      (applyOps s' on_speech_complete_ops).app.status = "Playback complete" ∧
      (applyOps s' on_speech_complete_ops).app.convertBtn = BtnState.normal ∧
      (applyOps s' on_speech_complete_ops).app.stopBtn = BtnState.disabled := by
  constructor
  · simp [step, hw, speak_text_ops, hspk, applyOps, applyOp]
  · intro s'
    simp [on_speech_complete_ops, applyOps, applyOp]

/-- C3 witness: the theorem applied to the state after a convert click
on "Hello world." from the initialized startup state. -/
theorem normal_return_schedules_complete_witness :
    (run (initSys EngineInitResult.ok) [Event.convertClick "Hello world."]).worker
        = some "Hello world." ∧
    (run (initSys EngineInitResult.ok) [Event.convertClick "Hello world."]).app.is_speaking
        = true ∧
    ((step (run (initSys EngineInitResult.ok) [Event.convertClick "Hello world."])
        (Event.workerFinish (Except.ok ()))).queue
      = (run (initSys EngineInitResult.ok) [Event.convertClick "Hello world."]).queue
          ++ [Callback.complete] ∧
     ∀ s' : SysState,
      (applyOps s' on_speech_complete_ops).app.is_speaking = false ∧
      (applyOps s' on_speech_complete_ops).app.status = "Playback complete" ∧
      (applyOps s' on_speech_complete_ops).app.convertBtn = BtnState.normal ∧
      (applyOps s' on_speech_complete_ops).app.stopBtn = BtnState.disabled) :=
  ⟨by decide, by decide,
   normal_return_schedules_complete
     (run (initSys EngineInitResult.ok) [Event.convertClick "Hello world."])
     "Hello world." (by decide) (by decide)⟩

/-- C4: with the engine initialized, a convert click whose stripped text
is empty or the placeholder shows the "Empty Text" warning box and
changes nothing: the resulting system state (flag, status, buttons,
queue, worker, thread count) is exactly the previous one. -/
theorem invalid_input_rejected_no_change (s : SysState) (raw : String)
    (hEng : s.app.engineInit = true)
    (hbad : pyStrip raw = "" ∨ pyStrip raw = placeholderText) :
    MicroOp.showWarningBox "Empty Text"
        "Please enter some text before converting to audio."
      ∈ on_convert_click_ops s.app raw ∧
    step s (Event.convertClick raw) = s := by
  constructor
  · simp [on_convert_click_ops, hEng, validate_input_none raw hbad]
  · simp [step, on_convert_click_ops, hEng, validate_input_none raw hbad,
      applyOps, applyOp]

/-- C4 witness: the theorem applied to the initialized startup state and
a whitespace-only input. -/
theorem invalid_input_rejected_no_change_witness :
    (initSys EngineInitResult.ok).app.engineInit = true ∧
    (pyStrip "   \n" = "" ∨ pyStrip "   \n" = placeholderText) ∧
    (MicroOp.showWarningBox "Empty Text"
        "Please enter some text before converting to audio."
      ∈ on_convert_click_ops (initSys EngineInitResult.ok).app "   \n" ∧
     step (initSys EngineInitResult.ok) (Event.convertClick "   \n")
        = initSys EngineInitResult.ok) :=
  ⟨by decide, by decide,
   invalid_input_rejected_no_change (initSys EngineInitResult.ok) "   \n"
     (by decide) (by decide)⟩

/-- C5: when engine initialization fails (import error or init
exception), the convert button is disabled and the status shows the
error, and every subsequent execution is a no-op: the state never
changes, `is_speaking` stays false, no worker thread is ever started,
and the convert button stays disabled. -/
theorem engine_init_failure_permanent (r : EngineInitResult)
    (hr : r ≠ EngineInitResult.ok) (events : List Event) :
    (initSys r).app.convertBtn = BtnState.disabled ∧
    (∃ msg, (initSys r).app.status = "Error: " ++ msg) ∧
    run (initSys r) events = initSys r ∧
    (run (initSys r) events).app.is_speaking = false ∧
    (run (initSys r) events).threadsStarted = 0 ∧
    (run (initSys r) events).app.convertBtn = BtnState.disabled := by
  have hEng : (initSys r).app.engineInit = false := by
    cases r with
    | ok => exact absurd rfl hr
    | importError => rfl
    | initError msg => rfl
  have hrun : run (initSys r) events = initSys r :=
    run_dead (initSys r) hEng rfl rfl events
  cases r with
  | ok => exact absurd rfl hr
  | importError =>
      refine ⟨rfl, ⟨"pyttsx3 not installed", rfl⟩, hrun, ?_, ?_, ?_⟩ <;>
        rw [hrun] <;> rfl
  | initError msg =>
      refine ⟨rfl, ⟨msg, rfl⟩, hrun, ?_, ?_, ?_⟩ <;>
        rw [hrun] <;> rfl

/-- C5 witness: the theorem applied to an import-error initialization
and two subsequent convert clicks. -/
theorem engine_init_failure_permanent_witness :
    EngineInitResult.importError ≠ EngineInitResult.ok ∧
    ((initSys EngineInitResult.importError).app.convertBtn = BtnState.disabled ∧
     (∃ msg, (initSys EngineInitResult.importError).app.status = "Error: " ++ msg) ∧
     run (initSys EngineInitResult.importError)
        [Event.convertClick "Hello world.", Event.convertClick "hi"]
       = initSys EngineInitResult.importError ∧
     (run (initSys EngineInitResult.importError)
        [Event.convertClick "Hello world.", Event.convertClick "hi"]).app.is_speaking
       = false ∧
     (run (initSys EngineInitResult.importError)
        [Event.convertClick "Hello world.", Event.convertClick "hi"]).threadsStarted
       = 0 ∧
     (run (initSys EngineInitResult.importError)
        [Event.convertClick "Hello world.", Event.convertClick "hi"]).app.convertBtn
       = BtnState.disabled) :=
  ⟨by decide,
   engine_init_failure_permanent EngineInitResult.importError (by decide)
     [Event.convertClick "Hello world.", Event.convertClick "hi"]⟩

/-- C6: a stop click while the engine is initialized and `is_speaking`
is true requests engine-level cancellation (`engine.stop()` is in the
handler's own trace), clears the flag within the same handler
(`setSpeaking false` is in the trace), and leaves status
"Playback stopped", convert enabled and stop disabled. -/
theorem stop_while_speaking (s : SysState)
    (hEng : s.app.engineInit = true) (hspk : s.app.is_speaking = true) :
    MicroOp.engineStop ∈ stop_speaking_ops s.app ∧
    MicroOp.setSpeaking false ∈ stop_speaking_ops s.app ∧
    (step s Event.stopClick).app.is_speaking = false ∧
    (step s Event.stopClick).app.status = "Playback stopped" ∧
    (step s Event.stopClick).app.convertBtn = BtnState.normal ∧
    (step s Event.stopClick).app.stopBtn = BtnState.disabled := by
  refine ⟨?_, ?_, ?_, ?_, ?_, ?_⟩ <;>
    simp [step, stop_speaking_ops, hEng, hspk, applyOps, applyOp]

/-- C6 witness: the theorem applied to the state after a convert click
on "Hello world." from the initialized startup state. -/
theorem stop_while_speaking_witness :
    (run (initSys EngineInitResult.ok) [Event.convertClick "Hello world."]).app.engineInit
        = true ∧
    (run (initSys EngineInitResult.ok) [Event.convertClick "Hello world."]).app.is_speaking
        = true ∧
    (MicroOp.engineStop
        ∈ stop_speaking_ops
            (run (initSys EngineInitResult.ok) [Event.convertClick "Hello world."]).app ∧
     MicroOp.setSpeaking false
        ∈ stop_speaking_ops
            (run (initSys EngineInitResult.ok) [Event.convertClick "Hello world."]).app ∧
     (step (run (initSys EngineInitResult.ok) [Event.convertClick "Hello world."])
        Event.stopClick).app.is_speaking = false ∧
     (step (run (initSys EngineInitResult.ok) [Event.convertClick "Hello world."])
        Event.stopClick).app.status = "Playback stopped" ∧
     (step (run (initSys EngineInitResult.ok) [Event.convertClick "Hello world."])
        Event.stopClick).app.convertBtn = BtnState.normal ∧
     (step (run (initSys EngineInitResult.ok) [Event.convertClick "Hello world."])
        Event.stopClick).app.stopBtn = BtnState.disabled) :=
  ⟨by decide, by decide,
   stop_while_speaking
     (run (initSys EngineInitResult.ok) [Event.convertClick "Hello world."])
     (by decide) (by decide)⟩

/-- C7: an exception in the worker's blocking call never escapes
`_speak_text`: regardless of the `is_speaking` flag its whole effect is
to schedule `_on_speech_error(str(e))`; and the error handler, run from
any state, clears `is_speaking`, writes a status containing the
exception's message, and re-enables the convert button (disabling
stop). -/
theorem synthesis_error_caught_and_reported (msg : String) (b : Bool) (s : SysState) :
    speak_text_ops (Except.error msg) b = [MicroOp.schedule (Callback.error msg)] ∧
    (applyOps s (on_speech_error_ops msg)).app.is_speaking = false ∧
    (∃ pre post : String,
      (applyOps s (on_speech_error_ops msg)).app.status = pre ++ msg ++ post) ∧
    (applyOps s (on_speech_error_ops msg)).app.convertBtn = BtnState.normal ∧
    (applyOps s (on_speech_error_ops msg)).app.stopBtn = BtnState.disabled := by
  refine ⟨rfl, ?_, ⟨"Error: ", "", ?_⟩, ?_, ?_⟩ <;>
    simp [on_speech_error_ops, applyOps, applyOp]

/-- C8 counterexample: after a convert click on "Hello world." from the
initialized startup state the status label is the literal
"Converting to audio...", not the claimed "Converting…". -/
theorem converting_status_not_spec_literal :
    (run (initSys EngineInitResult.ok) [Event.convertClick "Hello world."]).app.status
        = "Converting to audio..." ∧
    ¬ (run (initSys EngineInitResult.ok) [Event.convertClick "Hello world."]).app.status
        = "Converting…" := by decide

/-- C8 amended: for every convert click with the engine initialized and
stripped text non-empty and not the placeholder, the status label is set
to exactly "Converting to audio...". -/
theorem converting_status_exact (s : SysState) (raw : String)
    (hEng : s.app.engineInit = true)
    (hne : pyStrip raw ≠ "") (hph : pyStrip raw ≠ placeholderText) :
    (step s (Event.convertClick raw)).app.status = "Converting to audio..." := by
  simp [step, on_convert_click_ops, hEng, validate_input_some raw hne hph,
    applyOps, applyOp]

/-- C8 amended witness: the theorem applied to the initialized startup
state and the input "Hello world.". -/
theorem converting_status_exact_witness :
    (initSys EngineInitResult.ok).app.engineInit = true ∧
    pyStrip "Hello world." ≠ "" ∧
    pyStrip "Hello world." ≠ placeholderText ∧
    (step (initSys EngineInitResult.ok) (Event.convertClick "Hello world.")).app.status
        = "Converting to audio..." :=
  ⟨by decide, by decide, by decide,
   converting_status_exact (initSys EngineInitResult.ok) "Hello world."
     (by decide) (by decide) (by decide)⟩

/-- C9 counterexample: the worker routine does read `is_speaking` — its
behaviour after a normal return differs according to the flag's value
(it schedules the completion callback only when the flag is set), so
"never reads it" is false of the code. -/
theorem worker_depends_on_flag :
    speak_text_ops (Except.ok ()) true ≠ speak_text_ops (Except.ok ()) false := by
  decide

/-- C9 amended: the worker never mutates `is_speaking` (or any UI
state) directly — every operation it performs is a `root.after(0, ...)`
scheduling call, and its trace leaves the whole app state, in particular
the flag, unchanged — though it does read the flag to decide whether to
schedule the completion callback. -/
theorem worker_no_direct_mutation (outcome : Except String Unit) (b : Bool)
    (s : SysState) :
    (speak_text_ops outcome b).all isScheduleOp = true ∧
    (applyOps s (speak_text_ops outcome b)).app = s.app := by
  cases outcome with
  | ok u => cases b <;> simp [speak_text_ops, isScheduleOp, applyOps, applyOp]
  | error e => simp [speak_text_ops, isScheduleOp, applyOps, applyOp]

/-- Every single event preserves the button-enablement invariant. -/
lemma buttonsConsistent_step (s : SysState) (e : Event)
    (h : buttonsConsistent s.app) : buttonsConsistent (step s e).app := by
  cases e with
  | convertClick raw =>
      by_cases hEng : s.app.engineInit = false
      · simpa [step, on_convert_click_ops, hEng, applyOps, applyOp] using h
      · cases hval : validate_input raw with
        | none =>
            simpa [step, on_convert_click_ops, hEng, hval, applyOps, applyOp] using h
        | some t =>
            simp [step, on_convert_click_ops, hEng, hval, applyOps, applyOp,
              buttonsConsistent]
  | stopClick =>
      by_cases hg : s.app.engineInit = true ∧ s.app.is_speaking = true
      · obtain ⟨h1, h2⟩ := hg
        simp [step, stop_speaking_ops, h1, h2, applyOps, applyOp, buttonsConsistent]
      · simp only [step, stop_speaking_ops, if_neg hg]
        simpa [applyOps] using h
  | workerFinish outcome =>
      cases hw : s.worker with
      | none => simpa [step, hw] using h
      | some t =>
          cases outcome with
          | ok u =>
              by_cases hspk : s.app.is_speaking = true
              · simpa [step, hw, speak_text_ops, hspk, applyOps, applyOp] using h
              · simpa [step, hw, speak_text_ops, hspk, applyOps, applyOp] using h
          | error e => simpa [step, hw, speak_text_ops, applyOps, applyOp] using h
  | runCallback =>
      cases hq : s.queue with
      | nil => simpa [step, hq] using h
      | cons cb rest =>
          cases cb with
          | complete =>
              simp [step, hq, on_speech_complete_ops, applyOps, applyOp,
                buttonsConsistent]
          | error msg =>
              simp [step, hq, on_speech_error_ops, applyOps, applyOp,
                buttonsConsistent]

/-- The invariant is preserved by whole executions. -/
lemma buttonsConsistent_run (s : SysState) (h : buttonsConsistent s.app)
    (events : List Event) : buttonsConsistent (run s events).app := by
  induction events generalizing s with
  | nil => exact h
  | cons e es ih => exact ih (step s e) (buttonsConsistent_step s e h)

/-- C10: right after widget creation, and after any execution from
startup (whatever the engine-initialization outcome) — hence after every
UI-thread handler has run to completion — the stop button is enabled iff
`is_speaking` is true, and when the engine is initialized the convert
button is enabled iff `is_speaking` is false. -/
theorem buttons_reflect_flag (r : EngineInitResult) (events : List Event) :
    buttonsConsistent initialApp ∧
    buttonsConsistent (run (initSys r) events).app := by
  constructor
  · constructor
    · simp [initialApp]
    · intro hEng
      simp [initialApp] at hEng
  · have hinit : buttonsConsistent (initSys r).app := by
      cases r with
      | ok =>
          constructor
          · simp [initSys, initEngine, initialApp]
          · intro hEng
            simp [initSys, initEngine, initialApp]
      | importError =>
          constructor
          · simp [initSys, initEngine, initialApp]
          · intro hEng
            simp [initSys, initEngine, initialApp] at hEng
      | initError msg =>
          constructor
          · simp [initSys, initEngine, initialApp]
          · intro hEng
            simp [initSys, initEngine, initialApp] at hEng
    exact buttonsConsistent_run (initSys r) hinit events
